import Mathlib

/-!
Shallow embedding of the gas-deliver-client repository (a React Native
gas-cylinder delivery client) for checking its natural-language
specification.  The embedding covers:

* `Api`        — the API client (`src/services/api.ts`): the `request`
  primitive's status/body handling and `createOrder`'s client-side
  precondition checks;
* `PlaceOrder` — the order composer (`src/app/place-order.tsx`): cart
  operations `addToCart`/`updateQuantity`, pricing, `canPlaceOrder`
  and the dispatch decision of `placeOrder`;
* `Auth`       — the session manager (`contexts/AuthContext.tsx`):
  cross-platform storage, `login`, `register`, `refreshToken`,
  `logout` and `loadStoredAuthData` modelled as explicit state
  transformers; the outcomes of remote calls and of JSON parsing are
  passed in as oracle parameters.

JavaScript machine numbers that the claims exercise are integers, so
numeric fields are modelled as `Int`; JS string truthiness (only the
empty string is falsy) is modelled explicitly.
-/

namespace Api

/-- JS truthiness for an optional string: `null`/`undefined` and the
empty string are falsy, every other string is truthy. -/
def optStrTruthy : Option String → Bool
  | some s => !(s == "")
  | none => false

/-- JS `x || d` for an optional string field `x`: yields `x`'s value
when it is present and non-empty, otherwise the default `d`. -/
def jsOrString (x : Option String) (d : String) : String :=
  match x with
  | some s => if s == "" then d else s
  | none => d

/-- `role` field of `User` (src/services/api.ts). -/
inductive Role where
  | customer
  | driver
  | admin
deriving Repr, DecidableEq

/-- `User` interface (src/services/api.ts).  Numeric coordinates are
modelled as `Int`. -/
structure User where
  id : String
  email : String
  firstName : String
  lastName : String
  phone : String
  role : Role
  address : Option String
  latitude : Option Int
  longitude : Option Int
  isActive : Bool
  createdAt : String
deriving Repr, DecidableEq

/-- `AuthResponse` interface (src/services/api.ts). -/
structure AuthResponse where
  message : String
  token : String
  user : User
deriving Repr, DecidableEq

/-- `GasCylinder` interface (src/services/api.ts); the `supplier`,
`imageUrl`, `createdAt`, `updatedAt` fields play no role in any claim
and are elided; numeric fields are `Int`. -/
structure GasCylinder where
  id : String
  name : String
  weight : Int
  price : Int
  description : Option String
  brand : Option String
  stockQuantity : Int
  isAvailable : Bool
deriving Repr, DecidableEq

/-- `OrderItemPayload` interface (src/services/api.ts). -/
structure OrderItemPayload where
  cylinderId : String
  quantity : Int
deriving Repr, DecidableEq

/-- `CreateOrderPayload` interface (src/services/api.ts). -/
structure CreateOrderPayload where
  customerId : String
  items : List OrderItemPayload
  deliveryAddress : String
  deliveryLatitude : Int
  deliveryLongitude : Int
  specialInstructions : Option String
deriving Repr, DecidableEq

/-- The parse outcome of `response.json()` on a fetch response body:
either the body is not valid JSON (`json()` rejects), or it is an
object carrying optional string fields `error` and `message` (the only
fields `request` inspects). -/
inductive FetchBody where
  | unparseable
  | obj (error : Option String) (message : Option String)
deriving Repr, DecidableEq

/-- What `request` returns on success: the empty object `{}` produced
for a 204 response, or the parsed JSON data. -/
inductive ResponseData where
  | empty
  | obj (error : Option String) (message : Option String)
deriving Repr, DecidableEq

/-- How `request` fails: the JSON parse failure from `response.json()`
propagates as-is (`parseFailure`), or `request` itself throws
`new Error(msg)` (`errorMessage msg`). -/
inductive RequestFailure where
  | parseFailure
  | errorMessage (msg : String)
deriving Repr, DecidableEq

/-- The response handling of `ApiService.request` (src/services/api.ts
lines 203-228), as a function of the HTTP status and the body parse
outcome: 204 short-circuits to `{}` before any parse; then the body is
parsed (a parse failure propagates); then on a non-ok status
(`response.ok` is status 200-299) it throws
`data.error || data.message || "HTTP error! status: <code>"`. -/
def request (status : Nat) (body : FetchBody) : Except RequestFailure ResponseData :=
  if status == 204 then
    Except.ok ResponseData.empty
  else
    match body with
    | FetchBody.unparseable => Except.error RequestFailure.parseFailure
    | FetchBody.obj e m =>
      if 200 ≤ status && status ≤ 299 then
        Except.ok (ResponseData.obj e m)
      else
        Except.error (RequestFailure.errorMessage
          (jsOrString e (jsOrString m ("HTTP error! status: " ++ toString status))))

/-- Outcome of `ApiService.createOrder`'s client-side validation
(src/services/api.ts lines 404-431): either it throws before any
network activity, or it dispatches the POST to `/orders` with the
given payload. -/
inductive CreateOrderAction where
  | fail (msg : String)
  | dispatch (payload : CreateOrderPayload)
deriving Repr, DecidableEq

/-- `ApiService.createOrder`'s precondition checks (src/services/api.ts
lines 404-431): `!customerId`, `!items || items.length === 0`,
`!deliveryAddress` each throw a descriptive error before the request
is made; otherwise the payload is sent. -/
def createOrder (p : CreateOrderPayload) : CreateOrderAction :=
  if p.customerId == "" then
    CreateOrderAction.fail "Customer ID is required"
  else if p.items.isEmpty then
    CreateOrderAction.fail "Order items are required"
  else if p.deliveryAddress == "" then
    CreateOrderAction.fail "Delivery address is required"
  else
    CreateOrderAction.dispatch p

end Api

namespace PlaceOrder

/-- `CartItem extends GasCylinder { quantity }` (src/app/place-order.tsx
line 18). -/
structure CartItem extends Api.GasCylinder where
  quantity : Int
deriving Repr, DecidableEq

/-- `DELIVERY_FEE` constant (src/app/place-order.tsx line 36). -/
def DELIVERY_FEE : Int := 5000

/-- `addToCart(cylinder)` (src/app/place-order.tsx lines 59-75): if an
item with the cylinder's id is already in the cart, the add is
rejected when its quantity has reached the argument cylinder's
`stockQuantity` (the alert mutates nothing), and otherwise every item
with that id has its quantity incremented; a cylinder not yet in the
cart is appended with quantity 1. -/
def addToCart (cart : List CartItem) (cylinder : Api.GasCylinder) : List CartItem :=
  match cart.find? (fun item => item.id == cylinder.id) with
  | some existing =>
    if existing.quantity ≥ cylinder.stockQuantity then
      cart
    else
      cart.map (fun item =>
        if item.id == cylinder.id then
          { item with quantity := item.quantity + 1 }
        else
          item)
  | none => cart ++ [{ toGasCylinder := cylinder, quantity := 1 }]

/-- The per-item body of `updateQuantity` (src/app/place-order.tsx
lines 80-91): for the matching id, a new quantity ≤ 0 maps the item to
`null`, one above `stockQuantity` keeps the item unchanged (with an
alert), otherwise the quantity is replaced; other items pass through. -/
def updateQuantityStep (id : String) (change : Int) (item : CartItem) : Option CartItem :=
  if item.id == id then
    let newQuantity := item.quantity + change
    if newQuantity ≤ 0 then
      none
    else if newQuantity > item.stockQuantity then
      some item
    else
      some { item with quantity := newQuantity }
  else
    some item

/-- `updateQuantity(id, change)` (src/app/place-order.tsx lines 77-94):
map each item through the step above and drop the `null`s
(`.filter(Boolean)`). -/
def updateQuantity (cart : List CartItem) (id : String) (change : Int) : List CartItem :=
  (cart.map (updateQuantityStep id change)).filterMap (fun x => x)

/-- `subtotal` (src/app/place-order.tsx line 97). -/
def subtotal (cart : List CartItem) : Int :=
  cart.foldl (fun sum item => sum + item.price * item.quantity) 0

/-- `total` (src/app/place-order.tsx line 98). -/
def total (cart : List CartItem) : Int :=
  subtotal cart + DELIVERY_FEE

/-- The pieces of component state that `canPlaceOrder` and `placeOrder`
read: the cart, the three text inputs, the instructions input and the
`loading` flag. -/
structure OrderForm where
  cart : List CartItem
  deliveryAddress : String
  deliveryLat : String
  deliveryLng : String
  instructions : String
  loading : Bool
deriving Repr, DecidableEq

/-- Modelled JS `String.prototype.trim`: strip leading and trailing
whitespace (kept executable by kernel reduction, unlike the byte-index
based library trim). -/
def jsTrim (s : String) : String :=
  String.mk (((s.data.dropWhile Char.isWhitespace).reverse.dropWhile
    Char.isWhitespace).reverse)

/-- `canPlaceOrder()` (src/app/place-order.tsx lines 101-107):
`cart.length > 0 && deliveryAddress.trim() && deliveryLat &&
deliveryLng && !loading`, where a string is truthy iff non-empty. -/
def canPlaceOrder (s : OrderForm) : Bool :=
  decide (s.cart.length > 0) &&
  !(jsTrim s.deliveryAddress == "") &&
  !(s.deliveryLat == "") &&
  !(s.deliveryLng == "") &&
  !s.loading

/-- Value of a digit run, or `none` at the first non-digit. -/
def digitsVal : List Char → Nat → Option Nat
  | [], acc => some acc
  | c :: rest, acc =>
    if c.isDigit then digitsVal rest (acc * 10 + (c.toNat - 48)) else none

/-- Modelled JS `parseFloat`, restricted to the optional-sign decimal
integer numerals the claims exercise; a string that is not such a
numeral (JS `NaN`) is `none`. -/
def parseFloat (s : String) : Option Int :=
  match s.data with
  | [] => none
  | c :: rest =>
    if c = '-' then
      if rest = [] then none else (digitsVal rest 0).map (fun n => -(n : Int))
    else
      (digitsVal (c :: rest) 0).map (fun n => (n : Int))

/-- Outcome of one `placeOrder()` invocation (src/app/place-order.tsx
lines 110-178), up to the point where the order payload is (or is not)
handed to `apiService.createOrder`. -/
inductive PlaceOrderOutcome where
  | notLoggedIn
  | incomplete
  | invalidCoordinates
  | dispatched (payload : Api.CreateOrderPayload)
deriving Repr, DecidableEq

/-- `placeOrder()` (src/app/place-order.tsx lines 110-152): rejects
when user or token is falsy, then when `canPlaceOrder()` fails, then
when `parseFloat` of either coordinate is `NaN` or the latitude is
outside [-90, 90] or the longitude outside [-180, 180]; otherwise it
builds `orderData` (trimmed address, trimmed instructions only when
non-empty) and dispatches it. -/
def placeOrder (user : Option Api.User) (token : Option String) (s : OrderForm) :
    PlaceOrderOutcome :=
  if user.isNone || !(Api.optStrTruthy token) then
    PlaceOrderOutcome.notLoggedIn
  else if !(canPlaceOrder s) then
    PlaceOrderOutcome.incomplete
  else
    match parseFloat s.deliveryLat, parseFloat s.deliveryLng with
    | some lat, some lng =>
      if lat < -90 || lat > 90 || lng < -180 || lng > 180 then
        PlaceOrderOutcome.invalidCoordinates
      else
        PlaceOrderOutcome.dispatched
          { customerId := (user.map (fun u => u.id)).getD ""
            items := s.cart.map (fun item =>
              { cylinderId := item.id, quantity := item.quantity })
            deliveryAddress := jsTrim s.deliveryAddress
            deliveryLatitude := lat
            deliveryLongitude := lng
            specialInstructions :=
              if jsTrim s.instructions == "" then none
              else some (jsTrim s.instructions) }
    | _, _ => PlaceOrderOutcome.invalidCoordinates

/-- One cart mutation as exposed by the order screen. -/
inductive CartOp where
  | add (cylinder : Api.GasCylinder)
  | update (id : String) (change : Int)

/-- Apply one cart operation to the cart state. -/
def applyCartOp (cart : List CartItem) : CartOp → List CartItem
  | CartOp.add c => addToCart cart c
  | CartOp.update i ch => updateQuantity cart i ch

/-- Run a sequence of cart operations from the initially empty cart
(the screen initializes `useState<CartItem[]>([])`). -/
def runCartOps (ops : List CartOp) : List CartItem :=
  ops.foldl applyCartOp []

/-- Every cart item's quantity is in `[1, stockQuantity]`. -/
def goodCart (cart : List CartItem) : Prop :=
  ∀ item ∈ cart, 1 ≤ item.quantity ∧ item.quantity ≤ item.stockQuantity

/-- The ids of the cart items, in order. -/
def cartIds (cart : List CartItem) : List String :=
  cart.map (fun item => item.id)

/-- The inductive cart invariant: quantity bounds plus distinct ids. -/
def cartInv (cart : List CartItem) : Prop :=
  goodCart cart ∧ (cartIds cart).Nodup

/-- Side condition on an `addToCart` call: the cylinder has at least
one unit in stock, and it agrees on `stockQuantity` with any cart item
that already carries its id (in the app both copies come from the same
fetched cylinder list entry). -/
def addOK (cart : List CartItem) (c : Api.GasCylinder) : Prop :=
  1 ≤ c.stockQuantity ∧
  ∀ item ∈ cart, item.id = c.id → item.stockQuantity = c.stockQuantity

/-- Side condition of one cart operation against the current cart. -/
def opOK (cart : List CartItem) : CartOp → Prop
  | CartOp.add c => addOK cart c
  | CartOp.update _ _ => True

/-- A run of cart operations is valid when each operation satisfies
its side condition against the cart state it is applied to. -/
def validRun : List CartItem → List CartOp → Prop
  | _, [] => True
  | cart, op :: ops => opOK cart op ∧ validRun (applyCartOp cart op) ops

instance goodCartDecidable (cart : List CartItem) : Decidable (goodCart cart) := by
  unfold goodCart
  infer_instance

instance addOKDecidable (cart : List CartItem) (c : Api.GasCylinder) :
    Decidable (addOK cart c) := by
  unfold addOK
  infer_instance

instance opOKDecidable (cart : List CartItem) (op : CartOp) : Decidable (opOK cart op) :=
  match op with
  | CartOp.add c => addOKDecidable cart c
  | CartOp.update _ _ => isTrue trivial

instance validRunDecidable : (cart : List CartItem) → (ops : List CartOp) →
    Decidable (validRun cart ops)
  | _, [] => isTrue trivial
  | cart, op :: ops =>
    have : Decidable (validRun (applyCartOp cart op) ops) :=
      validRunDecidable (applyCartOp cart op) ops
    inferInstanceAs (Decidable (opOK cart op ∧ validRun (applyCartOp cart op) ops))

/-- Test fixture: a cylinder with id "a" and a single unit in stock. -/
def sampleCylinderA1 : Api.GasCylinder :=
  { id := "a", name := "6kg cylinder", weight := 6, price := 20000,
    description := none, brand := none, stockQuantity := 1, isAvailable := true }

/-- Test fixture: the same id "a" but with `stockQuantity` 2, as after
a stock refetch. -/
def sampleCylinderA2 : Api.GasCylinder :=
  { sampleCylinderA1 with stockQuantity := 2 }

/-- Test fixture: a cylinder with id "b", price 15000 and 5 in stock. -/
def sampleCylinderB : Api.GasCylinder :=
  { id := "b", name := "12kg cylinder", weight := 12, price := 15000,
    description := none, brand := none, stockQuantity := 5, isAvailable := true }

/-- Test fixture: a cylinder with id "c" and nothing in stock. -/
def sampleCylinderOutOfStock : Api.GasCylinder :=
  { id := "c", name := "45kg cylinder", weight := 45, price := 90000,
    description := none, brand := none, stockQuantity := 0, isAvailable := false }

/-- Test fixture: the cart of spec section 8,
`[{price:20000, qty:2}, {price:15000, qty:1}]`. -/
def specExampleCart : List CartItem :=
  [{ toGasCylinder := { sampleCylinderA1 with stockQuantity := 3 }, quantity := 2 },
   { toGasCylinder := sampleCylinderB, quantity := 1 }]

/-- Test fixture: a form whose latitude input reads "95", with a
non-empty cart, a non-blank address, a longitude, and no submission in
flight. -/
def formLat95 : OrderForm :=
  { cart := [{ toGasCylinder := sampleCylinderB, quantity := 1 }],
    deliveryAddress := "Plot 4, Kampala Road",
    deliveryLat := "95", deliveryLng := "32",
    instructions := "", loading := false }

/-- Test fixture: the same form with an in-range latitude "45". -/
def formLat45 : OrderForm :=
  { formLat95 with deliveryLat := "45" }

/-- Test fixture: a logged-in customer. -/
def sampleUser : Api.User :=
  { id := "u1", email := "jane@example.com", firstName := "Jane",
    lastName := "Doe", phone := "0700000000", role := Api.Role.customer,
    address := none, latitude := none, longitude := none,
    isActive := true, createdAt := "2024-01-01" }

/-- Test fixture: the payload `placeOrder` builds from `formLat45`
for `sampleUser`. -/
def sampleOrderPayload : Api.CreateOrderPayload :=
  { customerId := "u1",
    items := [{ cylinderId := "b", quantity := 1 }],
    deliveryAddress := "Plot 4, Kampala Road",
    deliveryLatitude := 45, deliveryLongitude := 32,
    specialInstructions := none }

end PlaceOrder

namespace Auth

/-- The key/value store behind `CrossPlatformStorage`
(contexts/AuthContext.tsx lines 41-84): `localStorage` on web,
`AsyncStorage` on native.  Modelled as an association list of
string keys and values. -/
structure Storage where
  items : List (String × String)
deriving Repr, DecidableEq

/-- `CrossPlatformStorage.getItem`: `null` (here `none`) for a missing
key. -/
def Storage.getItem (st : Storage) (key : String) : Option String :=
  (st.items.find? (fun kv => kv.1 == key)).map (fun kv => kv.2)

/-- `CrossPlatformStorage.setItem`. -/
def Storage.setItem (st : Storage) (key value : String) : Storage :=
  { items := (key, value) :: st.items.filter (fun kv => !(kv.1 == key)) }

/-- `CrossPlatformStorage.clear`: both backends clear the whole
store. -/
def Storage.clear (_ : Storage) : Storage :=
  { items := [] }

/-- The `AuthProvider` component state (contexts/AuthContext.tsx lines
87-90): `user`, `token`, `isLoading`, `error`. -/
structure AuthState where
  user : Option Api.User
  token : Option String
  isLoading : Bool
  error : Option String
deriving Repr, DecidableEq

/-- The initial `AuthProvider` state: `useState<User|null>(null)`,
`useState<string|null>(null)`, `useState(true)`, `useState<string|null>(null)`. -/
def initialAuthState : AuthState :=
  { user := none, token := none, isLoading := true, error := none }

/-- Modelled `JSON.stringify(user)` (an opaque injective textual
encoding; no claim depends on its contents). -/
def serializeUser (u : Api.User) : String :=
  toString (repr u)

/-- `logout()` (contexts/AuthContext.tsx lines 193-227): sets loading,
clears the error, best-effort calls the remote logout endpoint when
the token is truthy (`remoteLogoutSucceeds` is that call's outcome;
its failure is caught and swallowed), nulls `user` and `token`, clears
the whole storage, redirects to the login route, and finally clears
the loading flag.  Returns the new state, the new storage, and whether
the remote endpoint was invoked. -/
def logout (s : AuthState) (store : Storage) (remoteLogoutSucceeds : Bool) :
    AuthState × Storage × Bool :=
  let calledRemote := Api.optStrTruthy s.token
  let _ := remoteLogoutSucceeds
  ({ s with user := none, token := none, isLoading := false, error := none },
   store.clear, calledRemote)

/-- `login(credentials)` (contexts/AuthContext.tsx lines 130-150):
`result` is the outcome of `apiService.login`; on success the session
is replaced in memory and persisted under `authToken`/`userData`; on
failure the error message (or a generic fallback when it is empty) is
recorded, the state is otherwise untouched, and the error is re-thrown
to the caller. -/
def login (s : AuthState) (store : Storage) (result : Except String Api.AuthResponse) :
    AuthState × Storage :=
  match result with
  | Except.ok r =>
    ({ s with user := some r.user, token := some r.token,
              isLoading := false, error := none },
     (store.setItem "authToken" r.token).setItem "userData" (serializeUser r.user))
  | Except.error msg =>
    ({ s with isLoading := false,
              error := some (Api.jsOrString (some msg) "Login failed. Please try again.") },
     store)

/-- `register(userData)` (contexts/AuthContext.tsx lines 152-168): the
same shape as `login` with the registration endpoint and fallback
message. -/
def register (s : AuthState) (store : Storage) (result : Except String Api.AuthResponse) :
    AuthState × Storage :=
  match result with
  | Except.ok r =>
    ({ s with user := some r.user, token := some r.token,
              isLoading := false, error := none },
     (store.setItem "authToken" r.token).setItem "userData" (serializeUser r.user))
  | Except.error msg =>
    ({ s with isLoading := false,
              error := some (Api.jsOrString (some msg) "Registration failed. Please try again.") },
     store)

/-- `refreshToken()` (contexts/AuthContext.tsx lines 170-191): with a
falsy token it throws "No token available for refresh", landing in the
catch; otherwise `result` is the outcome of `apiService.refreshToken`.
On success the session is replaced and persisted; in the catch the
error is set to "Session expired. Please log in again." and `logout()`
is awaited (which itself clears the error again), then the error is
re-thrown. -/
def refreshToken (s : AuthState) (store : Storage)
    (result : Except String Api.AuthResponse) (remoteLogoutSucceeds : Bool) :
    AuthState × Storage :=
  if Api.optStrTruthy s.token then
    match result with
    | Except.ok r =>
      ({ s with token := some r.token, user := some r.user,
                isLoading := false, error := none },
       (store.setItem "authToken" r.token).setItem "userData" (serializeUser r.user))
    | Except.error _ =>
      let s1 := { s with error := some "Session expired. Please log in again." }
      let r1 := logout s1 store remoteLogoutSucceeds
      ({ r1.1 with isLoading := false }, r1.2.1)
  else
    let s1 := { s with error := some "Session expired. Please log in again." }
    let r1 := logout s1 store remoteLogoutSucceeds
    ({ r1.1 with isLoading := false }, r1.2.1)

/-- `loadStoredAuthData()` (contexts/AuthContext.tsx lines 95-124), the
startup restore: reads `authToken` and `userData`; when both are
truthy it parses the stored user (`parseUser` is the `JSON.parse`
outcome; a throw lands in the catch which records "Failed to load
session."), optimistically installs the session, then verifies the
token remotely (`verifySucceeds`); on verification failure it performs
a full `logout()`.  The `finally` clears the loading flag on every
path. -/
def loadStoredAuthData (s : AuthState) (store : Storage)
    (parseUser : String → Option Api.User) (verifySucceeds : Bool)
    (remoteLogoutSucceeds : Bool) : AuthState × Storage :=
  let s0 := { s with isLoading := true }
  match store.getItem "authToken", store.getItem "userData" with
  | some tok, some ud =>
    if tok == "" || ud == "" then
      ({ s0 with isLoading := false }, store)
    else
    match parseUser ud with
    | some u =>
      let s1 := { s0 with user := some u, token := some tok }
      if verifySucceeds then
        ({ s1 with isLoading := false }, store)
      else
        let r1 := logout s1 store remoteLogoutSucceeds
        ({ r1.1 with isLoading := false }, r1.2.1)
    | none =>
      ({ s0 with error := some "Failed to load session.", isLoading := false }, store)
  | _, _ => ({ s0 with isLoading := false }, store)

/-- One Session Manager operation together with the oracle outcomes of
its remote calls: the constructor arguments carry the results of the
API calls and of `JSON.parse` that the operation observes. -/
inductive AuthOp where
  | restoreOp (parseUser : String → Option Api.User)
      (verifySucceeds : Bool) (remoteLogoutSucceeds : Bool)
  | loginOp (result : Except String Api.AuthResponse)
  | registerOp (result : Except String Api.AuthResponse)
  | refreshOp (result : Except String Api.AuthResponse) (remoteLogoutSucceeds : Bool)
  | logoutOp (remoteLogoutSucceeds : Bool)

/-- Apply one Session Manager operation to the provider state and the
storage. -/
def applyAuthOp (ss : AuthState × Storage) : AuthOp → AuthState × Storage
  | AuthOp.restoreOp parseUser v r => loadStoredAuthData ss.1 ss.2 parseUser v r
  | AuthOp.loginOp result => login ss.1 ss.2 result
  | AuthOp.registerOp result => register ss.1 ss.2 result
  | AuthOp.refreshOp result r => refreshToken ss.1 ss.2 result r
  | AuthOp.logoutOp r =>
    let r1 := logout ss.1 ss.2 r
    (r1.1, r1.2.1)

/-- Run a sequence of Session Manager operations from the initial
provider state over an arbitrary initial storage. -/
def runAuthOps (store0 : Storage) (ops : List AuthOp) : AuthState × Storage :=
  ops.foldl applyAuthOp (initialAuthState, store0)

/-- The session is fully present (both `user` and `token` set) or
fully absent (both null). -/
def sessionConsistent (s : AuthState) : Prop :=
  (s.user.isNone ∧ s.token.isNone) ∨ (s.user.isSome ∧ s.token.isSome)

/-- Test fixture: a storage holding a token and serialized user data. -/
def sampleStoredStorage : Storage :=
  { items := [("authToken", "tok123"), ("userData", "stored-user-json")] }

/-- Test fixture: a `JSON.parse` outcome that succeeds with
`sampleUser`. -/
def sampleParseUser : String → Option Api.User :=
  fun _ => some PlaceOrder.sampleUser

end Auth

/-! ## Helper lemmas -/

/-- Folding addition of `f` over a list from `a` is `a` plus the sum of
the mapped list. -/
theorem foldl_add_map_sum {α : Type} (f : α → Int) :
    ∀ (l : List α) (a : Int), l.foldl (fun s x => s + f x) a = a + (l.map f).sum
  | [], a => by simp
  | x :: l, a => by
    rw [List.foldl_cons, foldl_add_map_sum f l (a + f x), List.map_cons, List.sum_cons]
    ring

/-- `subtotal` equals the sum of per-item price times quantity. -/
theorem subtotal_eq_sum (cart : List PlaceOrder.CartItem) :
    PlaceOrder.subtotal cart = (cart.map (fun item => item.price * item.quantity)).sum := by
  unfold PlaceOrder.subtotal
  rw [foldl_add_map_sum]
  ring

/-! ## Claim theorems -/

/-- C7: for every cart, the displayed order total equals the sum over
cart items of price times quantity plus the fixed delivery fee of
5000; for the spec's example cart of `{price 20000, qty 2}` and
`{price 15000, qty 1}` the total is 60000. -/
theorem c7_total_is_subtotal_plus_delivery_fee :
    (∀ cart : List PlaceOrder.CartItem,
      PlaceOrder.total cart =
        (cart.map (fun item => item.price * item.quantity)).sum + PlaceOrder.DELIVERY_FEE) ∧
    PlaceOrder.DELIVERY_FEE = 5000 ∧
    PlaceOrder.total PlaceOrder.specExampleCart = 60000 := by
  refine ⟨?_, rfl, rfl⟩
  intro cart
  unfold PlaceOrder.total
  rw [subtotal_eq_sum]

/-- C9: a 204 response yields the empty-object result from `request`
regardless of the response body, even one that would fail to parse, so
no parse error can be raised. -/
theorem c9_status_204_yields_empty_result :
    ∀ body : Api.FetchBody, Api.request 204 body = Except.ok Api.ResponseData.empty := by
  intro body
  rfl

/-- C8: `createOrder` throws its descriptive error before dispatching
any request when the payload has an empty customerId, an empty items
list, or an empty deliveryAddress; when all three preconditions hold,
it dispatches the payload. -/
theorem c8_createOrder_precondition_checks :
    ∀ p : Api.CreateOrderPayload,
      (p.customerId = "" →
        Api.createOrder p = Api.CreateOrderAction.fail "Customer ID is required") ∧
      (p.customerId ≠ "" → p.items = [] →
        Api.createOrder p = Api.CreateOrderAction.fail "Order items are required") ∧
      (p.customerId ≠ "" → p.items ≠ [] → p.deliveryAddress = "" →
        Api.createOrder p = Api.CreateOrderAction.fail "Delivery address is required") ∧
      (p.customerId ≠ "" → p.items ≠ [] → p.deliveryAddress ≠ "" →
        Api.createOrder p = Api.CreateOrderAction.dispatch p) := by
  intro p
  refine ⟨?_, ?_, ?_, ?_⟩ <;>
    intros <;>
    simp_all [Api.createOrder, List.isEmpty_iff]

/-- C8 witness: a fully populated payload is dispatched. -/
theorem c8_createOrder_precondition_checks_witness :
    Api.createOrder PlaceOrder.sampleOrderPayload =
      Api.CreateOrderAction.dispatch PlaceOrder.sampleOrderPayload :=
  (c8_createOrder_precondition_checks PlaceOrder.sampleOrderPayload).2.2.2
    (by decide) (by decide) (by decide)

/-- C10: a cylinder whose id is not in the cart is appended by
`addToCart` with quantity 1 unconditionally; concretely, adding the
out-of-stock fixture (stockQuantity 0) to the empty cart produces an
item whose quantity 1 exceeds its stockQuantity 0. -/
theorem c10_addToCart_appends_fresh_unconditionally :
    (∀ (cart : List PlaceOrder.CartItem) (c : Api.GasCylinder),
      (∀ item ∈ cart, item.id ≠ c.id) →
      PlaceOrder.addToCart cart c = cart ++ [{ toGasCylinder := c, quantity := 1 }]) ∧
    ∃ item ∈ PlaceOrder.addToCart [] PlaceOrder.sampleCylinderOutOfStock,
      item.quantity = 1 ∧ item.stockQuantity < item.quantity := by
  constructor
  · intro cart c h
    have hfind : cart.find? (fun item => item.id == c.id) = none := by
      rw [List.find?_eq_none]
      intro x hx
      simpa using h x hx
    unfold PlaceOrder.addToCart
    rw [hfind]
  · decide

/-- C10 witness: the appended-with-quantity-1 shape at the concrete
out-of-stock cylinder. -/
theorem c10_addToCart_appends_fresh_unconditionally_witness :
    PlaceOrder.addToCart [] PlaceOrder.sampleCylinderOutOfStock =
      [] ++ [{ toGasCylinder := PlaceOrder.sampleCylinderOutOfStock, quantity := 1 }] :=
  c10_addToCart_appends_fresh_unconditionally.1 [] PlaceOrder.sampleCylinderOutOfStock
    (by decide)

/-- C3: from every starting session state and storage, `logout`
terminates with in-memory user and token both null and the persisted
storage cleared, whether or not the remote logout call succeeds; in
the model it is a total function (the remote failure is swallowed), and
a second logout is a no-op that returns the same cleared state without
invoking the remote endpoint again. -/
theorem c3_logout_clears_session_idempotent :
    ∀ (s : Auth.AuthState) (store : Auth.Storage) (ok1 ok2 : Bool),
      (Auth.logout s store ok1).1.user = none ∧
      (Auth.logout s store ok1).1.token = none ∧
      (Auth.logout s store ok1).2.1.items = [] ∧
      Auth.logout (Auth.logout s store ok1).1 (Auth.logout s store ok1).2.1 ok2 =
        ((Auth.logout s store ok1).1, (Auth.logout s store ok1).2.1, false) := by
  intro s store ok1 ok2
  exact ⟨rfl, rfl, rfl, rfl⟩

/-- C6: when session restore finds a truthy stored token and stored
user data that parses, but the remote token verification fails, the
operation ends with user and token both null and the persisted storage
cleared. -/
theorem c6_restore_verify_failure_clears_session :
    ∀ (s : Auth.AuthState) (store : Auth.Storage)
      (parseUser : String → Option Api.User) (remoteOk : Bool)
      (tok ud : String) (u : Api.User),
      store.getItem "authToken" = some tok → tok ≠ "" →
      store.getItem "userData" = some ud → ud ≠ "" →
      parseUser ud = some u →
      (Auth.loadStoredAuthData s store parseUser false remoteOk).1.user = none ∧
      (Auth.loadStoredAuthData s store parseUser false remoteOk).1.token = none ∧
      (Auth.loadStoredAuthData s store parseUser false remoteOk).2.items = [] := by
  intro s store parseUser remoteOk tok ud u htok htokne hud hudne hparse
  unfold Auth.loadStoredAuthData
  rw [htok, hud]
  simp only [htokne, hudne, hparse]
  simp [Auth.logout, Auth.Storage.clear, htokne, hudne]

/-- C6 witness: the concrete stored session fixture with failing
verification ends cleared. -/
theorem c6_restore_verify_failure_clears_session_witness :
    (Auth.loadStoredAuthData Auth.initialAuthState Auth.sampleStoredStorage
      Auth.sampleParseUser false true).1.user = none ∧
    (Auth.loadStoredAuthData Auth.initialAuthState Auth.sampleStoredStorage
      Auth.sampleParseUser false true).1.token = none ∧
    (Auth.loadStoredAuthData Auth.initialAuthState Auth.sampleStoredStorage
      Auth.sampleParseUser false true).2.items = [] :=
  c6_restore_verify_failure_clears_session Auth.initialAuthState Auth.sampleStoredStorage
    Auth.sampleParseUser true "tok123" "stored-user-json" PlaceOrder.sampleUser
    rfl (by decide) rfl (by decide) rfl

/-- One Session Manager operation preserves the all-or-nothing shape
of the session. -/
theorem applyAuthOp_sessionConsistent (ss : Auth.AuthState × Auth.Storage)
    (op : Auth.AuthOp) (h : Auth.sessionConsistent ss.1) :
    Auth.sessionConsistent (Auth.applyAuthOp ss op).1 := by
  cases op with
  | restoreOp parseUser v r =>
    unfold Auth.applyAuthOp Auth.loadStoredAuthData
    rcases h1 : Auth.Storage.getItem ss.2 "authToken" with _ | tok <;>
      rcases h2 : Auth.Storage.getItem ss.2 "userData" with _ | ud <;>
      simp only [Auth.sessionConsistent] at h ⊢ <;> try exact h
    by_cases hempty : tok == "" || ud == ""
    · simpa [hempty] using h
    · rcases hp : parseUser ud with _ | u
      · simpa [hempty, hp] using h
      · by_cases hv : v <;> simp [hempty, hp, hv, Auth.logout]
  | loginOp result =>
    rcases result with msg | r
    · simpa [Auth.applyAuthOp, Auth.login, Auth.sessionConsistent] using h
    · simp [Auth.applyAuthOp, Auth.login, Auth.sessionConsistent]
  | registerOp result =>
    rcases result with msg | r
    · simpa [Auth.applyAuthOp, Auth.register, Auth.sessionConsistent] using h
    · simp [Auth.applyAuthOp, Auth.register, Auth.sessionConsistent]
  | refreshOp result r =>
    by_cases ht : Api.optStrTruthy ss.1.token <;>
      rcases result with msg | resp <;>
      simp [Auth.applyAuthOp, Auth.refreshToken, Auth.logout, ht, Auth.sessionConsistent]
  | logoutOp r =>
    simp [Auth.applyAuthOp, Auth.logout, Auth.sessionConsistent]

/-- Folding Session Manager operations preserves the all-or-nothing
shape of the session. -/
theorem foldl_authOps_consistent :
    ∀ (ops : List Auth.AuthOp) (ss : Auth.AuthState × Auth.Storage),
      Auth.sessionConsistent ss.1 →
      Auth.sessionConsistent (ops.foldl Auth.applyAuthOp ss).1
  | [], _, h => h
  | op :: ops, ss, h =>
    foldl_authOps_consistent ops (Auth.applyAuthOp ss op)
      (applyAuthOp_sessionConsistent ss op h)

/-- C4: after any sequence of Session Manager operations (restore,
login, register, refresh, logout) from the initial provider state over
any initial storage, the session is fully present (user and token both
set) or fully absent (both null), never partial. -/
theorem c4_session_full_or_absent :
    ∀ (store0 : Auth.Storage) (ops : List Auth.AuthOp),
      Auth.sessionConsistent (Auth.runAuthOps store0 ops).1 := by
  intro store0 ops
  exact foldl_authOps_consistent ops (Auth.initialAuthState, store0) (Or.inl ⟨rfl, rfl⟩)

/-- C2 counterexample: with the latitude input holding "95", a
non-empty cart, a non-blank trimmed address, a longitude set, and no
submission in flight, `canPlaceOrder` returns true, not false — it
performs no coordinate-range check. -/
theorem c2_counterexample :
    PlaceOrder.formLat95.deliveryLat = "95" ∧
    PlaceOrder.formLat95.cart ≠ [] ∧
    PlaceOrder.jsTrim PlaceOrder.formLat95.deliveryAddress ≠ "" ∧
    PlaceOrder.formLat95.deliveryLng ≠ "" ∧
    PlaceOrder.formLat95.loading = false ∧
    PlaceOrder.canPlaceOrder PlaceOrder.formLat95 = true := by
  decide

/-- C2 amended: `canPlaceOrder` checks only that the cart is
non-empty, the trimmed address and both coordinate inputs are
non-empty strings and no submission is in flight, so it returns true
for latitude "95"; the range check is performed by `placeOrder` after
`canPlaceOrder`, which dispatches a payload only when `canPlaceOrder`
holds and both coordinates parse with latitude in [-90, 90] and
longitude in [-180, 180] — so the latitude-95 form is still rejected
(as invalid coordinates) before any order is sent. -/
theorem c2_amended_submission_range_check :
    (∀ (user : Option Api.User) (token : Option String) (s : PlaceOrder.OrderForm)
       (p : Api.CreateOrderPayload),
      PlaceOrder.placeOrder user token s = PlaceOrder.PlaceOrderOutcome.dispatched p →
      PlaceOrder.canPlaceOrder s = true ∧
      ∃ lat lng : Int,
        PlaceOrder.parseFloat s.deliveryLat = some lat ∧
        PlaceOrder.parseFloat s.deliveryLng = some lng ∧
        -90 ≤ lat ∧ lat ≤ 90 ∧ -180 ≤ lng ∧ lng ≤ 180) ∧
    PlaceOrder.canPlaceOrder PlaceOrder.formLat95 = true ∧
    PlaceOrder.placeOrder (some PlaceOrder.sampleUser) (some "tok") PlaceOrder.formLat95 =
      PlaceOrder.PlaceOrderOutcome.invalidCoordinates := by
  refine ⟨?_, by decide, by decide⟩
  intro user token s p h
  unfold PlaceOrder.placeOrder at h
  split at h
  · exact absurd h (by simp)
  split at h
  · exact absurd h (by simp)
  rename_i hA hB
  have hcan : PlaceOrder.canPlaceOrder s = true := by
    simpa using hB
  split at h <;> try (simp at h)
  rename_i lat lng hlat hlng
  split at h
  · simp at h
  rename_i hrange
  exact ⟨hcan, lat, lng, hlat, hlng, by omega, by omega, by omega, by omega⟩

/-- C2 witness: the in-range form (latitude "45") passes
`canPlaceOrder` and dispatches with both coordinates parsed and in
range. -/
theorem c2_amended_submission_range_check_witness :
    PlaceOrder.canPlaceOrder PlaceOrder.formLat45 = true ∧
    ∃ lat lng : Int,
      PlaceOrder.parseFloat PlaceOrder.formLat45.deliveryLat = some lat ∧
      PlaceOrder.parseFloat PlaceOrder.formLat45.deliveryLng = some lng ∧
      -90 ≤ lat ∧ lat ≤ 90 ∧ -180 ≤ lng ∧ lng ≤ 180 :=
  c2_amended_submission_range_check.1 (some PlaceOrder.sampleUser) (some "tok")
    PlaceOrder.formLat45 PlaceOrder.sampleOrderPayload (by decide)

/-- C5 counterexample: a non-2xx response whose body carries the
`error` field present but holding the empty string raises the
`message` field's value, not the (present) `error` field's value. -/
theorem c5_counterexample :
    Api.request 400 (Api.FetchBody.obj (some "") (some "Bad request")) =
      Except.error (Api.RequestFailure.errorMessage "Bad request") ∧
    "Bad request" ≠ "" := by
  exact ⟨rfl, by decide⟩

/-- C5 amended: on a non-2xx (and non-204) response with a parseable
object body, the raised message is the body's `error` field when it is
present and non-empty, else the `message` field when present and
non-empty, else "HTTP error! status: <code>"; in particular a body
with `error` field "Email already exists" raises exactly that
string. -/
theorem c5_amended_error_message_selection :
    (∀ (status : Nat) (es : String) (m : Option String),
      status ≠ 204 → ¬(200 ≤ status ∧ status ≤ 299) → es ≠ "" →
      Api.request status (Api.FetchBody.obj (some es) m) =
        Except.error (Api.RequestFailure.errorMessage es)) ∧
    (∀ (status : Nat) (e : Option String) (ms : String),
      status ≠ 204 → ¬(200 ≤ status ∧ status ≤ 299) →
      (e = none ∨ e = some "") → ms ≠ "" →
      Api.request status (Api.FetchBody.obj e (some ms)) =
        Except.error (Api.RequestFailure.errorMessage ms)) ∧
    (∀ (status : Nat) (e m : Option String),
      status ≠ 204 → ¬(200 ≤ status ∧ status ≤ 299) →
      (e = none ∨ e = some "") → (m = none ∨ m = some "") →
      Api.request status (Api.FetchBody.obj e m) =
        Except.error (Api.RequestFailure.errorMessage
          ("HTTP error! status: " ++ toString status))) ∧
    Api.request 409 (Api.FetchBody.obj (some "Email already exists") none) =
      Except.error (Api.RequestFailure.errorMessage "Email already exists") := by
  refine ⟨?_, ?_, ?_, rfl⟩
  · intro status es m h204 hok hes
    simp [Api.request, Api.jsOrString, h204, hok, hes]
  · intro status e ms h204 hok he hms
    rcases he with rfl | rfl <;>
      simp [Api.request, Api.jsOrString, h204, hok, hms]
  · intro status e m h204 hok he hm
    rcases he with rfl | rfl <;> rcases hm with rfl | rfl <;>
      simp [Api.request, Api.jsOrString, h204, hok]

/-- C5 witness: the error-field selection applied at a concrete
conflict response. -/
theorem c5_amended_error_message_selection_witness :
    Api.request 409 (Api.FetchBody.obj (some "Email already exists") (some "ignored")) =
      Except.error (Api.RequestFailure.errorMessage "Email already exists") :=
  c5_amended_error_message_selection.1 409 "Email already exists" (some "ignored")
    (by decide) (by decide) (by decide)

/-- `updateQuantity` is the `filterMap` of its per-item step. -/
theorem updateQuantity_eq_filterMap (cart : List PlaceOrder.CartItem) (id : String)
    (ch : Int) :
    PlaceOrder.updateQuantity cart id ch =
      cart.filterMap (PlaceOrder.updateQuantityStep id ch) := by
  unfold PlaceOrder.updateQuantity
  rw [List.filterMap_map]
  rfl

/-- The per-item step preserves the item id whenever it keeps an
item. -/
theorem updateQuantityStep_id (id : String) (ch : Int)
    (item item2 : PlaceOrder.CartItem)
    (h : PlaceOrder.updateQuantityStep id ch item = some item2) :
    item2.id = item.id := by
  simp only [PlaceOrder.updateQuantityStep] at h
  split at h
  · split at h
    · cases h
    · split at h
      · cases h
        rfl
      · cases h
        rfl
  · cases h
    rfl

/-- The per-item step keeps quantities within bounds. -/
theorem updateQuantityStep_good (id : String) (ch : Int)
    (item item2 : PlaceOrder.CartItem)
    (hgood : 1 ≤ item.quantity ∧ item.quantity ≤ item.stockQuantity)
    (h : PlaceOrder.updateQuantityStep id ch item = some item2) :
    1 ≤ item2.quantity ∧ item2.quantity ≤ item2.stockQuantity := by
  simp only [PlaceOrder.updateQuantityStep] at h
  split at h
  · split at h
    · cases h
    · rename_i hle
      split at h
      · cases h
        exact hgood
      · rename_i hgt
        cases h
        refine ⟨?_, ?_⟩ <;> dsimp only <;> omega
  · cases h
    exact hgood

/-- `filterMap` by an id-preserving step keeps the id list a
sublist. -/
theorem cartIds_filterMap_sublist (g : PlaceOrder.CartItem → Option PlaceOrder.CartItem)
    (hg : ∀ x y, g x = some y → y.id = x.id) :
    ∀ cart : List PlaceOrder.CartItem,
      (PlaceOrder.cartIds (cart.filterMap g)).Sublist (PlaceOrder.cartIds cart)
  | [] => List.Sublist.slnil
  | x :: cart => by
    unfold PlaceOrder.cartIds
    cases hgx : g x with
    | none =>
      rw [List.filterMap_cons, hgx]
      exact List.Sublist.cons x.id (cartIds_filterMap_sublist g hg cart)
    | some y =>
      rw [List.filterMap_cons, hgx, List.map_cons, List.map_cons, hg x y hgx]
      exact List.Sublist.cons₂ x.id (cartIds_filterMap_sublist g hg cart)

/-- `addToCart` preserves the cart invariant when the added cylinder
has stock and agrees on stock with any cart item of its id. -/
theorem addToCart_inv (cart : List PlaceOrder.CartItem) (c : Api.GasCylinder)
    (hinv : PlaceOrder.cartInv cart) (hok : PlaceOrder.addOK cart c) :
    PlaceOrder.cartInv (PlaceOrder.addToCart cart c) := by
  obtain ⟨hgood, hnodup⟩ := hinv
  obtain ⟨hstock, hcons⟩ := hok
  have hnodup2 : (cart.map (fun item => item.id)).Nodup := hnodup
  unfold PlaceOrder.addToCart
  cases hfind : cart.find? (fun item => item.id == c.id) with
  | none =>
    have hfresh : ∀ item ∈ cart, ¬(item.id = c.id) := by
      intro item hmem heq
      have := List.find?_eq_none.mp hfind item hmem
      simp [heq] at this
    constructor
    · intro item hmem
      rcases List.mem_append.mp hmem with hmem2 | hmem2
      · exact hgood item hmem2
      · have hitem : item = { toGasCylinder := c, quantity := 1 } := by
          simpa using hmem2
        subst hitem
        exact ⟨le_refl 1, hstock⟩
    · unfold PlaceOrder.cartIds
      rw [List.map_append]
      refine List.Nodup.append hnodup2 (by simp) ?_
      intro a ha hb
      simp only [List.map_cons, List.map_nil, List.mem_singleton] at hb
      rcases List.mem_map.mp ha with ⟨orig, horig, rfl⟩
      exact hfresh orig horig (by simpa using hb)
  | some existing =>
    dsimp only
    have hmem_ex : existing ∈ cart := List.mem_of_find?_eq_some hfind
    have hex_id : existing.id = c.id := by
      have := List.find?_some hfind
      simpa using this
    by_cases hq : existing.quantity ≥ c.stockQuantity
    · rw [if_pos hq]
      exact ⟨hgood, hnodup⟩
    · rw [if_neg hq]
      constructor
      · intro item hmem
        rcases List.mem_map.mp hmem with ⟨orig, horig, rfl⟩
        by_cases hid : orig.id = c.id
        · have horig_eq : orig = existing := by
            apply List.inj_on_of_nodup_map hnodup2 horig hmem_ex
            rw [hid, hex_id]
          subst horig_eq
          rw [if_pos (by simpa using hid)]
          have hb := hgood orig hmem_ex
          have hc2 := hcons orig hmem_ex hid
          refine ⟨?_, ?_⟩ <;> dsimp only <;> omega
        · rw [if_neg (by simpa using hid)]
          exact hgood orig horig
      · have hids : (cart.map fun item =>
            if (item.id == c.id) = true then
              { item with quantity := item.quantity + 1 }
            else item).map (fun item => item.id) =
            cart.map (fun item => item.id) := by
          rw [List.map_map]
          apply List.map_congr_left
          intro a _
          by_cases h : a.id = c.id <;> simp [h]
        unfold PlaceOrder.cartIds
        rw [hids]
        exact hnodup2

/-- `updateQuantity` preserves the cart invariant. -/
theorem updateQuantity_inv (cart : List PlaceOrder.CartItem) (id : String) (ch : Int)
    (hinv : PlaceOrder.cartInv cart) :
    PlaceOrder.cartInv (PlaceOrder.updateQuantity cart id ch) := by
  obtain ⟨hgood, hnodup⟩ := hinv
  constructor
  · intro item hmem
    rw [updateQuantity_eq_filterMap] at hmem
    rcases List.mem_filterMap.mp hmem with ⟨orig, horig, hstep⟩
    exact updateQuantityStep_good id ch orig item (hgood orig horig) hstep
  · rw [updateQuantity_eq_filterMap]
    exact List.Nodup.sublist
      (cartIds_filterMap_sublist (PlaceOrder.updateQuantityStep id ch)
        (fun x y h => updateQuantityStep_id id ch x y h) cart)
      hnodup

/-- A valid run of cart operations preserves the cart invariant. -/
theorem validRun_cartInv :
    ∀ (ops : List PlaceOrder.CartOp) (cart : List PlaceOrder.CartItem),
      PlaceOrder.cartInv cart → PlaceOrder.validRun cart ops →
      PlaceOrder.cartInv (ops.foldl PlaceOrder.applyCartOp cart)
  | [], _, hinv, _ => hinv
  | op :: ops, cart, hinv, hval => by
    obtain ⟨hop, hrest⟩ := hval
    have hnext : PlaceOrder.cartInv (PlaceOrder.applyCartOp cart op) := by
      cases op with
      | add c => exact addToCart_inv cart c hinv hop
      | update i ch => exact updateQuantity_inv cart i ch hinv
    exact validRun_cartInv ops (PlaceOrder.applyCartOp cart op) hnext hrest

/-- An update that drives every matching item's quantity to 0 or below
removes exactly the matching items. -/
theorem updateQuantity_removes :
    ∀ (cart : List PlaceOrder.CartItem) (id : String) (ch : Int),
      (∀ item ∈ cart, item.id = id → item.quantity + ch ≤ 0) →
      PlaceOrder.updateQuantity cart id ch =
        cart.filter (fun item => !(item.id == id))
  | [], id, ch, _ => by simp [PlaceOrder.updateQuantity]
  | x :: cart, id, ch, h => by
    have hrec := updateQuantity_removes cart id ch
      (fun item hm him => h item (List.mem_cons_of_mem x hm) him)
    rw [updateQuantity_eq_filterMap] at hrec ⊢
    by_cases hid : x.id = id
    · have hstep : PlaceOrder.updateQuantityStep id ch x = none := by
        simp [PlaceOrder.updateQuantityStep, hid,
          h x (List.mem_cons_self x cart) hid]
      rw [List.filterMap_cons, hstep, List.filter_cons]
      simp [hid, hrec]
    · have hstep : PlaceOrder.updateQuantityStep id ch x = some x := by
        simp [PlaceOrder.updateQuantityStep, hid]
      rw [List.filterMap_cons, hstep, List.filter_cons]
      simp [hid, hrec]

/-- An update that would push every matching item past its stock (with
a positive new quantity) leaves the cart unchanged. -/
theorem updateQuantity_rejects :
    ∀ (cart : List PlaceOrder.CartItem) (id : String) (ch : Int),
      (∀ item ∈ cart, item.id = id →
        0 < item.quantity + ch ∧ item.stockQuantity < item.quantity + ch) →
      PlaceOrder.updateQuantity cart id ch = cart
  | [], id, ch, _ => by simp [PlaceOrder.updateQuantity]
  | x :: cart, id, ch, h => by
    have hrec := updateQuantity_rejects cart id ch
      (fun item hm him => h item (List.mem_cons_of_mem x hm) him)
    rw [updateQuantity_eq_filterMap] at hrec ⊢
    have hstep : PlaceOrder.updateQuantityStep id ch x = some x := by
      by_cases hid : x.id = id
      · obtain ⟨h1, h2⟩ := h x (List.mem_cons_self x cart) hid
        have hc1 : ¬(x.quantity + ch ≤ 0) := by omega
        have hc2 : x.quantity + ch > x.stockQuantity := by omega
        simp [PlaceOrder.updateQuantityStep, hid, hc1, hc2]
      · simp [PlaceOrder.updateQuantityStep, hid]
    rw [List.filterMap_cons, hstep, hrec]

/-- C1 counterexample: both fixture cylinders carry stockQuantity at
least 1, yet adding id "a" with stock 1 and then id "a" again with
stock 2 yields a cart item whose quantity 2 exceeds its own
stockQuantity 1 — `addToCart` checks the bound against the argument
cylinder while the cart item keeps its captured stockQuantity. -/
theorem c1_counterexample :
    1 ≤ PlaceOrder.sampleCylinderA1.stockQuantity ∧
    1 ≤ PlaceOrder.sampleCylinderA2.stockQuantity ∧
    ∃ item ∈ PlaceOrder.runCartOps
        [PlaceOrder.CartOp.add PlaceOrder.sampleCylinderA1,
         PlaceOrder.CartOp.add PlaceOrder.sampleCylinderA2],
      item.stockQuantity < item.quantity := by
  decide

/-- C1 amended: for every sequence of `addToCart`/`updateQuantity`
calls from the empty cart in which every added cylinder has
stockQuantity at least 1 and agrees on stockQuantity with any cart
item already carrying its id, every resulting cart item has quantity
between 1 and its stockQuantity; moreover a quantity update that would
reach 0 or below removes the matching item, and one that would exceed
its stockQuantity (while staying positive) leaves the cart
unchanged. -/
theorem c1_amended_cart_quantity_invariant :
    (∀ ops : List PlaceOrder.CartOp,
      PlaceOrder.validRun [] ops →
      PlaceOrder.goodCart (PlaceOrder.runCartOps ops)) ∧
    (∀ (cart : List PlaceOrder.CartItem) (id : String) (ch : Int),
      (∀ item ∈ cart, item.id = id → item.quantity + ch ≤ 0) →
      PlaceOrder.updateQuantity cart id ch =
        cart.filter (fun item => !(item.id == id))) ∧
    (∀ (cart : List PlaceOrder.CartItem) (id : String) (ch : Int),
      (∀ item ∈ cart, item.id = id →
        0 < item.quantity + ch ∧ item.stockQuantity < item.quantity + ch) →
      PlaceOrder.updateQuantity cart id ch = cart) := by
  refine ⟨?_, updateQuantity_removes, updateQuantity_rejects⟩
  intro ops hval
  have hinit : PlaceOrder.cartInv [] :=
    ⟨fun item hmem => absurd hmem (List.not_mem_nil item), by simp [PlaceOrder.cartIds]⟩
  exact (validRun_cartInv ops [] hinit hval).1

/-- C1 witness: a concrete valid run stays in bounds, a concrete
to-zero update removes the item, and a concrete past-stock update is a
no-op. -/
theorem c1_amended_cart_quantity_invariant_witness :
    PlaceOrder.goodCart (PlaceOrder.runCartOps
      [PlaceOrder.CartOp.add PlaceOrder.sampleCylinderB,
       PlaceOrder.CartOp.add PlaceOrder.sampleCylinderB,
       PlaceOrder.CartOp.update "b" (-1)]) ∧
    PlaceOrder.updateQuantity
        [{ toGasCylinder := PlaceOrder.sampleCylinderB, quantity := 1 }] "b" (-1) =
      List.filter (fun item => !(item.id == "b"))
        [{ toGasCylinder := PlaceOrder.sampleCylinderB, quantity := 1 }] ∧
    PlaceOrder.updateQuantity
        [{ toGasCylinder := PlaceOrder.sampleCylinderB, quantity := 5 }] "b" 1 =
      [{ toGasCylinder := PlaceOrder.sampleCylinderB, quantity := 5 }] :=
  ⟨c1_amended_cart_quantity_invariant.1 _ (by decide),
   c1_amended_cart_quantity_invariant.2.1 _ "b" (-1) (by decide),
   c1_amended_cart_quantity_invariant.2.2 _ "b" 1 (by decide)⟩
